import Mathlib

set_option maxRecDepth 16000

/-!
# Verification of `langlearn-polly` core types and CLI behaviour

Shallow embedding of `src/langlearn_polly/types.py` and the input-handling
parts of `src/langlearn_polly/cli.py`, together with a model (from the
design document) of the batch-synthesis orchestration whose implementation
(`core.py`) is not part of the source tree.

Machine integers are represented as `Nat` with explicit reduction
modulo `2 ^ 32` (resp. `2 ^ 64`) where the algorithms require it.
-/

namespace LanglearnPolly

/-! ## MD5 (the `hashlib.md5(...).hexdigest()` used by `generate_filename`)

Bytes are `Nat` values below 256; words are `Nat` values below `2 ^ 32`.
The digest of a byte list is the standard MD5 digest: pad, split into
64-byte blocks, run 64 rounds per block, output the four state words
little-endian. -/

/-- Truncation to a 32-bit word. -/
def w32 (n : Nat) : Nat := n % 4294967296

/-- Bitwise complement on 32-bit words. -/
def not32 (x : Nat) : Nat := Nat.xor (w32 x) 4294967295

/-- Left rotation of a 32-bit word by `s` places (`0 < s < 32`). -/
def rotl32 (x s : Nat) : Nat :=
  w32 (Nat.lor (Nat.shiftLeft (w32 x) s) (Nat.shiftRight (w32 x) (32 - s)))

/-- MD5 round function F (rounds 0–15). -/
def md5F (b c d : Nat) : Nat := Nat.lor (Nat.land b c) (Nat.land (not32 b) d)

/-- MD5 round function G (rounds 16–31). -/
def md5G (b c d : Nat) : Nat := Nat.lor (Nat.land d b) (Nat.land (not32 d) c)

/-- MD5 round function H (rounds 32–47). -/
def md5H (b c d : Nat) : Nat := Nat.xor b (Nat.xor c d)

/-- MD5 round function I (rounds 48–63). -/
def md5I (b c d : Nat) : Nat := Nat.xor c (Nat.lor b (not32 d))

/-- The 64 MD5 sine-derived constants `K[i] = floor(2^32 * |sin(i+1)|)`. -/
def md5K : List Nat := [
    3614090360, 3905402710, 606105819, 3250441966, 4118548399, 1200080426, 2821735955, 4249261313,
    1770035416, 2336552879, 4294925233, 2304563134, 1804603682, 4254626195, 2792965006, 1236535329,
    4129170786, 3225465664, 643717713, 3921069994, 3593408605, 38016083, 3634488961, 3889429448,
    568446438, 3275163606, 4107603335, 1163531501, 2850285829, 4243563512, 1735328473, 2368359562,
    4294588738, 2272392833, 1839030562, 4259657740, 2763975236, 1272893353, 4139469664, 3200236656,
    681279174, 3936430074, 3572445317, 76029189, 3654602809, 3873151461, 530742520, 3299628645,
    4096336452, 1126891415, 2878612391, 4237533241, 1700485571, 2399980690, 4293915773, 2240044497,
    1873313359, 4264355552, 2734768916, 1309151649, 4149444226, 3174756917, 718787259, 3951481745]

/-- The 64 MD5 per-round left-rotation amounts. -/
def md5S : List Nat := [
    7, 12, 17, 22, 7, 12, 17, 22, 7, 12, 17, 22, 7, 12, 17, 22,
    5, 9, 14, 20, 5, 9, 14, 20, 5, 9, 14, 20, 5, 9, 14, 20,
    4, 11, 16, 23, 4, 11, 16, 23, 4, 11, 16, 23, 4, 11, 16, 23,
    6, 10, 15, 21, 6, 10, 15, 21, 6, 10, 15, 21, 6, 10, 15, 21]

/-- One MD5 round: `M` is the 16-word message schedule of the current
block, `i` the round index. -/
def md5Step (M : List Nat) (st : Nat × Nat × Nat × Nat) (i : Nat) :
    Nat × Nat × Nat × Nat :=
  let a := st.1
  let b := st.2.1
  let c := st.2.2.1
  let d := st.2.2.2
  let f := if i < 16 then md5F b c d
           else if i < 32 then md5G b c d
           else if i < 48 then md5H b c d
           else md5I b c d
  let g := if i < 16 then i
           else if i < 32 then (5 * i + 1) % 16
           else if i < 48 then (3 * i + 5) % 16
           else (7 * i) % 16
  let x := w32 (f + a + md5K.getD i 0 + M.getD g 0)
  (d, w32 (b + rotl32 x (md5S.getD i 0)), b, c)

/-- Little-endian 32-bit word from (up to) four bytes. -/
def wordOfBytesLE (bs : List Nat) : Nat :=
  bs.getD 0 0 + 256 * bs.getD 1 0 + 65536 * bs.getD 2 0 + 16777216 * bs.getD 3 0

/-- Process one 64-byte block, updating the running state. -/
def md5Block (st : Nat × Nat × Nat × Nat) (block : List Nat) :
    Nat × Nat × Nat × Nat :=
  let M := (List.range 16).map (fun j => wordOfBytesLE ((block.drop (4 * j)).take 4))
  let r := (List.range 64).foldl (md5Step M) st
  (w32 (st.1 + r.1), w32 (st.2.1 + r.2.1), w32 (st.2.2.1 + r.2.2.1),
   w32 (st.2.2.2 + r.2.2.2))

/-- MD5 padding: append `0x80`, zero bytes up to 56 mod 64, then the
original length in bits, modulo `2 ^ 64`, as eight little-endian bytes. -/
def md5Pad (m : List Nat) : List Nat :=
  let zeros := (119 - m.length % 64) % 64
  let bitLen := (8 * m.length) % 18446744073709551616
  m ++ [128] ++ List.replicate zeros 0 ++
    (List.range 8).map (fun i => (Nat.shiftRight bitLen (8 * i)) % 256)

/-- Split a byte list into 64-byte chunks (fuel-based so that it reduces
by structural recursion; the fuel `l.length` always suffices). -/
def chunksAux : Nat → List Nat → List (List Nat)
  | 0, _ => []
  | _ + 1, [] => []
  | fuel + 1, l => l.take 64 :: chunksAux fuel (l.drop 64)

/-- Split a byte list into 64-byte chunks. -/
def chunks64 (l : List Nat) : List (List Nat) := chunksAux l.length l

/-- The MD5 initial state. -/
def md5Init : Nat × Nat × Nat × Nat :=
  (1732584193, 4023233417, 2562383102, 271733878)

/-- Four little-endian bytes of a 32-bit word. -/
def wordLE (w : Nat) : List Nat :=
  [w % 256, (Nat.shiftRight w 8) % 256, (Nat.shiftRight w 16) % 256,
   (Nat.shiftRight w 24) % 256]

/-- Final MD5 state over a byte message. -/
def md5Words (m : List Nat) : Nat × Nat × Nat × Nat :=
  (chunks64 (md5Pad m)).foldl md5Block md5Init

/-- The 16-byte MD5 digest of a byte message. -/
def md5Bytes (m : List Nat) : List Nat :=
  wordLE (md5Words m).1 ++ wordLE (md5Words m).2.1 ++
  wordLE (md5Words m).2.2.1 ++ wordLE (md5Words m).2.2.2

/-- Lowercase hexadecimal digit character for `n < 16`. -/
def hexDigitChar (n : Nat) : Char :=
  if n < 10 then Char.ofNat (48 + n) else Char.ofNat (87 + n)

/-- Two lowercase hex characters of one byte (`"%02x"`). -/
def byteToHex (b : Nat) : List Char := [hexDigitChar (b / 16), hexDigitChar (b % 16)]

/-- A lowercase hexadecimal character: a decimal digit or one of `a`–`f`
(by code point). -/
def isHexChar (c : Char) : Bool :=
  (48 ≤ c.toNat && c.toNat ≤ 57) || (97 ≤ c.toNat && c.toNat ≤ 102)

/-- The 32 characters of `hashlib.md5(m).hexdigest()`. -/
def md5HexChars (m : List Nat) : List Char := (md5Bytes m).flatMap byteToHex

/-- UTF-8 encoding of one Unicode code point (Python `str.encode()`), as bytes. -/
def utf8EncodeCharNat (n : Nat) : List Nat :=
  if n < 128 then [n]
  else if n < 2048 then [192 + n / 64, 128 + n % 64]
  else if n < 65536 then [224 + n / 4096, 128 + (n / 64) % 64, 128 + n % 64]
  else [240 + n / 262144, 128 + (n / 4096) % 64, 128 + (n / 64) % 64, 128 + n % 64]

/-- UTF-8 encoding of a string (Python `text.encode()`), as bytes. -/
def utf8Bytes (s : String) : List Nat :=
  s.data.flatMap (fun c => utf8EncodeCharNat c.toNat)

/-- The 12-hex-character truncated digest
`hashlib.md5(text.encode()).hexdigest()[:12]` from `generate_filename`. -/
def md5Digest12 (text : String) : String :=
  String.mk ((md5HexChars (utf8Bytes text)).take 12)

/-- Embeds `types.generate_filename(text, prefix)`: deterministic MP3 filename
from text content; the prefix is prepended when non-empty
(Python `if prefix:`). -/
def generate_filename (text : String) (pfx : String) : String :=
  let digest := md5Digest12 text
  if pfx = "" then digest ++ ".mp3" else pfx ++ digest ++ ".mp3"

/-! ## Voice registry and `resolve_voice` (types.py) -/

/-- Embeds `types.VoiceConfig`: maps a voice to its Polly parameters
(a frozen dataclass). -/
structure VoiceConfig where
  voice_id : String
  language_code : String
  engine : String
deriving DecidableEq, Repr

/-- The static `VOICES` registry, keyed by short human-readable name,
in source order. -/
def VOICES : List (String × VoiceConfig) := [
  ("joanna", ⟨"Joanna", "en-US", "neural"⟩),
  ("matthew", ⟨"Matthew", "en-US", "neural"⟩),
  ("marlene", ⟨"Marlene", "de-DE", "neural"⟩),
  ("hans", ⟨"Hans", "de-DE", "neural"⟩),
  ("vicki", ⟨"Vicki", "de-DE", "standard"⟩),
  ("daniel", ⟨"Daniel", "de-DE", "standard"⟩),
  ("tatyana", ⟨"Tatyana", "ru-RU", "standard"⟩),
  ("maxim", ⟨"Maxim", "ru-RU", "standard"⟩),
  ("seoyeon", ⟨"Seoyeon", "ko-KR", "neural"⟩)]

/-- Python `str.lower()` on one character, restricted to ASCII (every
registry key is ASCII, where Python and this definition agree). -/
def lowerChar (c : Char) : Char :=
  if 65 ≤ c.toNat ∧ c.toNat ≤ 90 then Char.ofNat (c.toNat + 32) else c

/-- Python `name.lower()` (ASCII range). -/
def lowerStr (s : String) : String := String.mk (s.data.map lowerChar)

/-- Strict lexicographic code-point comparison of character lists
(Python string `<`). -/
def ltChars : List Char → List Char → Bool
  | [], [] => false
  | [], _ :: _ => true
  | _ :: _, [] => false
  | a :: as, b :: bs =>
      if a.toNat < b.toNat then true
      else if b.toNat < a.toNat then false
      else ltChars as bs

/-- Strict lexicographic comparison of strings (Python string `<`). -/
def ltStr (a b : String) : Bool := ltChars a.data b.data

/-- Insert a string into an ascending list (lexicographic code-point
order, as Python `sorted`). -/
def insertStr (x : String) : List String → List String
  | [] => [x]
  | y :: ys => if ltStr x y then x :: y :: ys else y :: insertStr x ys

/-- Ascending sort of strings, as Python `sorted`. -/
def sortStrings : List String → List String
  | [] => []
  | x :: xs => insertStr x (sortStrings xs)

/-- The text `", ".join(sorted(VOICES))` from the error branch of
`resolve_voice`. -/
def availableVoices : String :=
  String.intercalate ", " (sortStrings (VOICES.map Prod.fst))

/-- Embeds `types.resolve_voice(name)`: case-insensitive lookup; raising
`ValueError` is modelled as `Except.error` carrying the message. -/
def resolve_voice (name : String) : Except String VoiceConfig :=
  let key := lowerStr name
  match VOICES.lookup key with
  | some cfg => Except.ok cfg
  | none => Except.error
      ("Unknown voice \x27" ++ name ++ "\x27. Available: " ++ availableVoices)

/-! ## Request and result types (types.py)

All three dataclasses are declared `frozen=True`: the `__setattr__`
generated by the dataclass machinery unconditionally raises
`FrozenInstanceError`, modelled below as an always-failing update. -/

/-- Embeds `types.MergeStrategy`. -/
inductive MergeStrategy where
  | ONE_FILE_PER_INPUT
  | ONE_FILE_PER_BATCH
deriving DecidableEq, Repr

/-- The string value of each `MergeStrategy` member. -/
def MergeStrategy.value : MergeStrategy → String
  | .ONE_FILE_PER_INPUT => "separate"
  | .ONE_FILE_PER_BATCH => "single"

/-- Embeds `types.SynthesisRequest` (frozen dataclass; `rate` defaults to 75). -/
structure SynthesisRequest where
  text : String
  voice : VoiceConfig
  rate : Int
deriving DecidableEq, Repr

/-- Constructing a `SynthesisRequest` without the `rate` argument:
Python fills in the declared default `rate: int = 75`. -/
def SynthesisRequest.mkDefault (text : String) (voice : VoiceConfig) :
    SynthesisRequest :=
  ⟨text, voice, 75⟩

/-- Embeds `types.SynthesisResult` (frozen dataclass); `file_path` is kept as
its string form. -/
structure SynthesisResult where
  file_path : String
  text : String
  voice_name : String
deriving DecidableEq, Repr

/-- Embeds `SynthesisResult.to_dict`. -/
def SynthesisResult.to_dict (r : SynthesisResult) : List (String × String) :=
  [("file_path", r.file_path), ("text", r.text), ("voice", r.voice_name)]

/-- Attribute assignment on a frozen `VoiceConfig`: the dataclass-generated
`__setattr__` raises `FrozenInstanceError` for every field and value. -/
def VoiceConfig.setAttr (_v : VoiceConfig) (_field _val : String) :
    Except String VoiceConfig :=
  Except.error "FrozenInstanceError"

/-- Attribute assignment on a frozen `SynthesisRequest` always raises. -/
def SynthesisRequest.setAttr (_r : SynthesisRequest) (_field _val : String) :
    Except String SynthesisRequest :=
  Except.error "FrozenInstanceError"

/-- Attribute assignment on a frozen `SynthesisResult` always raises. -/
def SynthesisResult.setAttr (_r : SynthesisResult) (_field _val : String) :
    Except String SynthesisResult :=
  Except.error "FrozenInstanceError"

/-! ## CLI default output paths (cli.py)

When `--output` is omitted, the CLI computes a default path. The
directory component (`Path.cwd()`) is irrelevant to naming, so only the
filename is modelled. -/

/-- Embeds `cli.synthesize`: the default filename
`f"{voice}_{text[:20].replace(' ', '_')}.mp3"`. Python `str.replace` of
one character by one character is the character-wise substitution. -/
def default_single_output (voice text : String) : String :=
  voice ++ "_" ++
    String.mk ((text.data.take 20).map (fun c => if c = ' ' then '_' else c)) ++
    ".mp3"

/-- Embeds `cli.synthesize_pair`: the default filename
`f"pair_{text1[:10]}_{text2[:10]}.mp3"`. -/
def default_pair_output (text1 text2 : String) : String :=
  "pair_" ++ String.mk (text1.data.take 10) ++ "_" ++
    String.mk (text2.data.take 10) ++ ".mp3"

/-! ## Batch input validation (cli.py)

`json.loads` output is modelled by a JSON value type; the CLI checks
only `isinstance(raw, list)` and then builds requests, indexing pair
entries with `p[0]` and `p[1]` (an unchecked `cast`). -/

/-- A parsed JSON value, as returned by `json.loads`. -/
inductive Json where
  | jstr (s : String)
  | jnum (n : Int)
  | jbool (b : Bool)
  | jnull
  | jarr (items : List Json)
  | jobj (fields : List (String × Json))

/-- Python sequence indexing `p[i]` as exercised by the CLI:
list indexing, string indexing (yielding a one-character string), and a
`TypeError` on non-sequences; out-of-range indices raise `IndexError`. -/
def pyIndex : Json → Nat → Except String Json
  | Json.jarr xs, i =>
      match xs.get? i with
      | some x => Except.ok x
      | none => Except.error "IndexError"
  | Json.jstr s, i =>
      match s.data.get? i with
      | some c => Except.ok (Json.jstr (String.mk [c]))
      | none => Except.error "IndexError"
  | _, _ => Except.error "TypeError"

/-- Embeds `cli.synthesize_batch` input handling: the parsed file content must
be a list (`isinstance(raw, list)`), else `click.BadParameter`; the
entries are then used as texts without further checks. -/
def parse_batch_texts (raw : Json) : Except String (List Json) :=
  match raw with
  | Json.jarr entries => Except.ok entries
  | _ => Except.error "INPUT_FILE must contain a JSON array of strings."

/-- Embeds `cli.synthesize_pair_batch` input handling: the parsed content must
be a list, else `click.BadParameter`; each entry `p` then contributes
the pair `(p[0], p[1])` — no check that `p` is a length-2 list. -/
def parse_pair_entries (raw : Json) : Except String (List (Json × Json)) :=
  match raw with
  | Json.jarr entries =>
      entries.mapM (fun p => do
        let a ← pyIndex p 0
        let b ← pyIndex p 1
        pure (a, b))
  | _ => Except.error "INPUT_FILE must contain a JSON array of [text1, text2] pairs."

/-- The `synthesize-pair-batch` command down to the backend boundary:
input parsing happens first, and the backend (`PollyClient`) is applied
only to successfully parsed pairs. -/
def cli_synthesize_pair_batch (backend : Json × Json → SynthesisResult)
    (raw : Json) : Except String (List SynthesisResult) := do
  let pairs ← parse_pair_entries raw
  pure (pairs.map backend)

/-- The `synthesize-batch` command down to the backend boundary. -/
def cli_synthesize_batch (backend : Json → SynthesisResult)
    (raw : Json) : Except String (List SynthesisResult) := do
  let texts ← parse_batch_texts raw
  pure (texts.map backend)

/-! ## Batch orchestration (modelled from the spec)

`PollyClient` (`core.py`) is not part of the source tree; its
`synthesize_batch` is modelled from the design document, §4.4: under
`ONE_FILE_PER_BATCH`, every request is synthesized in order to an
in-memory stream, the ordered streams are passed to the assembler with
the pause, and a single result is returned whose `source_text` is the
`" | "`-joined concatenation of the input texts. -/

/-- One piece of assembled audio: a decoded segment or a silence gap. -/
inductive AudioPiece where
  | seg (bytes : List Nat)
  | silence (ms : Nat)
deriving DecidableEq, Repr

/-- Modelled from the spec: `AudioAssembler.assemble` — start from the
first segment, then append a silence of `pause_ms` before each
subsequent segment, in input order (spec §4.3). -/
def assemble (streams : List (List Nat)) (pause_ms : Nat) : List AudioPiece :=
  match streams with
  | [] => []
  | s :: rest =>
      AudioPiece.seg s ::
        rest.flatMap (fun t => [AudioPiece.silence pause_ms, AudioPiece.seg t])

/-- The decoded segment carried by an audio piece, if any. -/
def pieceSeg : AudioPiece → Option (List Nat)
  | AudioPiece.seg b => some b
  | AudioPiece.silence _ => none

/-- The segments of an assembled stream, in order, silences dropped. -/
def segmentsOf (l : List AudioPiece) : List (List Nat) :=
  l.filterMap pieceSeg

/-- Order-preserving deduplication (first occurrence kept) of the voice
labels used by a batch. -/
def dedupStrings : List String → List String
  | [] => []
  | x :: xs => x :: dedupStrings (xs.filter (fun y => y ≠ x))
termination_by l => l.length
decreasing_by
  simp only [List.length_cons]
  exact Nat.lt_succ_of_le (List.length_filter_le _ _)

/-- Modelled from the spec: `PollyClient.synthesize_batch` (`core.py` is
missing from the source tree). The backend is the external synthesis
collaborator, mapping a request to encoded audio bytes. Each returned
result is paired with the audio content written to its file. Under
`ONE_FILE_PER_INPUT` each request yields its own file named by the
`FilenameAllocator`; under `ONE_FILE_PER_BATCH` the ordered streams are
assembled with `pause_ms` into one file named from the composite text,
with the pipe-joined source text and a `+`-joined label of the distinct
voices used (spec §4.4, §3). -/
def synthesize_batch (backend : SynthesisRequest → List Nat)
    (reqs : List SynthesisRequest) (output_dir : String)
    (strategy : MergeStrategy) (pause_ms : Nat) :
    List (SynthesisResult × List AudioPiece) :=
  match strategy with
  | MergeStrategy.ONE_FILE_PER_INPUT =>
      reqs.map (fun r =>
        (⟨output_dir ++ "/" ++ generate_filename r.text "", r.text,
          r.voice.voice_id⟩,
         [AudioPiece.seg (backend r)]))
  | MergeStrategy.ONE_FILE_PER_BATCH =>
      let joined := String.intercalate " | " (reqs.map (fun r => r.text))
      let label :=
        String.intercalate "+" (dedupStrings (reqs.map (fun r => r.voice.voice_id)))
      [(⟨output_dir ++ "/" ++ generate_filename joined "", joined, label⟩,
        assemble (reqs.map backend) pause_ms)]

/-! ## Helper lemmas -/

theorem flatMap_byteToHex_length (l : List Nat) :
    (l.flatMap byteToHex).length = 2 * l.length := by
  induction l with
  | nil => rfl
  | cons b bs ih => simp [byteToHex, ih]; omega

theorem md5Bytes_length (m : List Nat) : (md5Bytes m).length = 16 := by
  simp [md5Bytes, wordLE]

theorem md5HexChars_length (m : List Nat) : (md5HexChars m).length = 32 := by
  rw [md5HexChars, flatMap_byteToHex_length, md5Bytes_length]

theorem md5Digest12_length (t : String) : (md5Digest12 t).length = 12 := by
  rw [md5Digest12, String.length_mk, List.length_take, md5HexChars_length]
  rfl

theorem wordLE_lt (w : Nat) : ∀ x ∈ wordLE w, x < 256 := by
  intro x hx
  simp only [wordLE, List.mem_cons, List.not_mem_nil, or_false] at hx
  rcases hx with rfl | rfl | rfl | rfl <;> exact Nat.mod_lt _ (by norm_num)

theorem md5Bytes_lt (m : List Nat) : ∀ b ∈ md5Bytes m, b < 256 := by
  intro b hb
  simp only [md5Bytes, List.mem_append] at hb
  rcases hb with ((h | h) | h) | h <;> exact wordLE_lt _ _ h

theorem isHexChar_hexDigitChar {n : Nat} (h : n < 16) :
    isHexChar (hexDigitChar n) = true := by
  interval_cases n <;> decide

theorem md5HexChars_hex (m : List Nat) :
    ∀ c ∈ md5HexChars m, isHexChar c = true := by
  intro c hc
  simp only [md5HexChars, List.mem_flatMap] at hc
  obtain ⟨b, hb, hcb⟩ := hc
  have hblt : b < 256 := md5Bytes_lt m b hb
  simp only [byteToHex, List.mem_cons, List.not_mem_nil, or_false] at hcb
  rcases hcb with rfl | rfl
  · exact isHexChar_hexDigitChar (Nat.div_lt_of_lt_mul (by omega))
  · exact isHexChar_hexDigitChar (Nat.mod_lt _ (by norm_num))

theorem md5Digest12_hex (t : String) :
    ∀ c ∈ (md5Digest12 t).data, isHexChar c = true := by
  intro c hc
  have hc' : c ∈ (md5HexChars (utf8Bytes t)).take 12 := hc
  exact md5HexChars_hex _ c (List.take_subset 12 _ hc')

theorem generate_filename_eq (t p : String) :
    generate_filename t p = p ++ md5Digest12 t ++ ".mp3" := by
  unfold generate_filename
  by_cases hp : p = ""
  · subst hp; simp
  · simp [hp]

theorem string_append_right_cancel {a b c : String} (h : a ++ c = b ++ c) :
    a = b := by
  apply String.ext
  have hd := congrArg String.data h
  simp only [String.data_append] at hd
  exact List.append_cancel_right hd

/-! ## Claim theorems -/

/-- C1: `generate_filename(text, prefix)` is the concatenation of the prefix,
a fixed-length (12 lowercase hex character) digest of the text, and `".mp3"`;
the digest `md5Digest12` is a pure function of the text alone, so two calls
with identical `(text, prefix)` inputs return identical filenames. -/
theorem generate_filename_shape (t p : String) :
    generate_filename t p = p ++ md5Digest12 t ++ ".mp3" ∧
    (md5Digest12 t).length = 12 ∧
    (∀ c ∈ (md5Digest12 t).data, isHexChar c = true) ∧
    (∀ t2 p2, t2 = t → p2 = p → generate_filename t2 p2 = generate_filename t p) :=
  ⟨generate_filename_eq t p, md5Digest12_length t, md5Digest12_hex t,
   fun _ _ ht hp => by rw [ht, hp]⟩

theorem generate_filename_shape_witness :
    generate_filename "hello" "pair_" = "pair_" ++ md5Digest12 "hello" ++ ".mp3" ∧
    generate_filename "hello" "pair_" = "pair_5d41402abc4b.mp3" ∧
    generate_filename "hello" "pair_" = generate_filename "hello" "pair_" :=
  ⟨(generate_filename_shape "hello" "pair_").1, by decide,
   (generate_filename_shape "hello" "pair_").2.2.2 "hello" "pair_" rfl rfl⟩

/-- C7 counterexample: the texts `"792106"` and `"14125795"` are distinct but
their (truncated) digests agree, so `generate_filename` maps them to the same
filename — distinctness of texts does not imply distinctness of filenames. -/
theorem generate_filename_collision :
    ("792106" : String) ≠ "14125795" ∧
    generate_filename "792106" "" = generate_filename "14125795" "" :=
  ⟨by decide, by decide⟩

/-- C7 (amended): filenames separate texts exactly as far as the truncated
12-hex-character digest does — whenever the digests of two texts differ, the
generated filenames differ (the converse fails: truncation to 48 bits admits
collisions between distinct texts). -/
theorem generate_filename_inj_of_digest_ne (t1 t2 : String)
    (h : md5Digest12 t1 ≠ md5Digest12 t2) :
    generate_filename t1 "" ≠ generate_filename t2 "" := by
  intro he
  apply h
  rw [generate_filename_eq t1 "", generate_filename_eq t2 "",
    String.empty_append, String.empty_append] at he
  exact string_append_right_cancel he

theorem generate_filename_inj_of_digest_ne_witness :
    md5Digest12 "hello" ≠ md5Digest12 "test" ∧
    generate_filename "hello" "" ≠ generate_filename "test" "" :=
  ⟨by decide, generate_filename_inj_of_digest_ne "hello" "test" (by decide)⟩

/-- C8: `generate_filename` is total — for every text and prefix, including
empty strings, it returns a filename of the expected size (prefix length plus
12 digest characters plus `".mp3"`); in particular the empty text yields the
filename of the empty digest. -/
theorem generate_filename_total :
    (∀ t p : String, (generate_filename t p).length = p.length + 16) ∧
    generate_filename "" "" = "d41d8cd98f00.mp3" := by
  constructor
  · intro t p
    rw [generate_filename_eq, String.length_append, String.length_append,
      md5Digest12_length]
    rfl
  · decide

theorem resolve_voice_ok_iff {s : String} {cfg : VoiceConfig} :
    resolve_voice s = Except.ok cfg ↔ VOICES.lookup (lowerStr s) = some cfg := by
  unfold resolve_voice
  cases h : VOICES.lookup (lowerStr s) <;> simp [h]

/-- C4: `resolve_voice` is case-insensitive — any two names with the same
lower-cased form resolve to the same `VoiceConfig` whenever resolution
succeeds; in particular `resolve_voice "HANS"` equals
`resolve_voice "hans"`. -/
theorem resolve_voice_case_insensitive :
    (∀ s t : String, lowerStr s = lowerStr t →
        ∀ cfg, resolve_voice s = Except.ok cfg → resolve_voice t = Except.ok cfg) ∧
    resolve_voice "HANS" = resolve_voice "hans" := by
  constructor
  · intro s t h cfg hs
    rw [resolve_voice_ok_iff] at hs ⊢
    rw [← h]
    exact hs
  · rfl

theorem resolve_voice_case_insensitive_witness :
    lowerStr "HANS" = lowerStr "hans" ∧
    resolve_voice "hans" = Except.ok ⟨"Hans", "de-DE", "neural"⟩ :=
  ⟨by decide,
   resolve_voice_case_insensitive.1 "HANS" "hans" (by decide)
     ⟨"Hans", "de-DE", "neural"⟩ (by rfl)⟩

/-- C5: when the lower-cased name is not a registry key, `resolve_voice`
fails with a message carrying the requested name and the
alphabetically-sorted list of all valid voice names (the sorted list is
exhibited literally, is pairwise strictly ascending, and is a permutation of
the registry keys); when the lower-cased name is a registry key it succeeds. -/
theorem resolve_voice_error_spec :
    (∀ name, VOICES.lookup (lowerStr name) = none →
        resolve_voice name = Except.error
          ("Unknown voice \x27" ++ name ++ "\x27. Available: " ++ availableVoices)) ∧
    availableVoices =
      "daniel, hans, joanna, marlene, matthew, maxim, seoyeon, tatyana, vicki" ∧
    List.Pairwise (fun a b => ltStr a b = true) (sortStrings (VOICES.map Prod.fst)) ∧
    (sortStrings (VOICES.map Prod.fst)).Perm (VOICES.map Prod.fst) ∧
    (∀ name cfg, VOICES.lookup (lowerStr name) = some cfg →
        resolve_voice name = Except.ok cfg) := by
  refine ⟨?_, by decide, by decide, by decide, ?_⟩
  · intro name h
    simp only [resolve_voice, h]
  · intro name cfg h
    exact resolve_voice_ok_iff.mpr h

theorem resolve_voice_error_spec_witness :
    resolve_voice "nope" = Except.error
      "Unknown voice \x27nope\x27. Available: daniel, hans, joanna, marlene, matthew, maxim, seoyeon, tatyana, vicki" ∧
    resolve_voice "hans" = Except.ok ⟨"Hans", "de-DE", "neural"⟩ :=
  ⟨(resolve_voice_error_spec.1 "nope" (by decide)).trans (by rfl),
   resolve_voice_error_spec.2.2.2.2 "hans" ⟨"Hans", "de-DE", "neural"⟩ (by decide)⟩

/-- C9: `VoiceConfig`, `SynthesisRequest` and `SynthesisResult` are frozen:
fields are fixed at construction (each projection returns the construction
argument) and every attribute assignment fails with `FrozenInstanceError`. -/
theorem frozen_dataclasses_immutable :
    (∀ (v : VoiceConfig) f x,
        VoiceConfig.setAttr v f x = Except.error "FrozenInstanceError") ∧
    (∀ (r : SynthesisRequest) f x,
        SynthesisRequest.setAttr r f x = Except.error "FrozenInstanceError") ∧
    (∀ (r : SynthesisResult) f x,
        SynthesisResult.setAttr r f x = Except.error "FrozenInstanceError") ∧
    (∀ a b c, (VoiceConfig.mk a b c).voice_id = a ∧
        (VoiceConfig.mk a b c).language_code = b ∧
        (VoiceConfig.mk a b c).engine = c) ∧
    (∀ t v rt, (SynthesisRequest.mk t v rt).text = t ∧
        (SynthesisRequest.mk t v rt).voice = v ∧
        (SynthesisRequest.mk t v rt).rate = rt) ∧
    (∀ p t vn, (SynthesisResult.mk p t vn).file_path = p ∧
        (SynthesisResult.mk p t vn).text = t ∧
        (SynthesisResult.mk p t vn).voice_name = vn) :=
  ⟨fun _ _ _ => rfl, fun _ _ _ => rfl, fun _ _ _ => rfl,
   fun _ _ _ => ⟨rfl, rfl, rfl⟩, fun _ _ _ => ⟨rfl, rfl, rfl⟩,
   fun _ _ _ => ⟨rfl, rfl, rfl⟩⟩

/-- C10: a `SynthesisRequest` constructed without a `rate` argument has
`rate = 75`, with text and voice as given. -/
theorem synthesisRequest_default_rate (t : String) (v : VoiceConfig) :
    (SynthesisRequest.mkDefault t v).rate = 75 ∧
    (SynthesisRequest.mkDefault t v).text = t ∧
    (SynthesisRequest.mkDefault t v).voice = v :=
  ⟨rfl, rfl, rfl⟩

theorem segmentsOf_gap_chain (rest : List (List Nat)) (p : Nat) :
    segmentsOf (rest.flatMap fun t => [AudioPiece.silence p, AudioPiece.seg t]) =
      rest := by
  induction rest with
  | nil => rfl
  | cons t ts ih =>
      simp only [List.flatMap_cons, segmentsOf, List.filterMap_append] at ih ⊢
      simp [pieceSeg, ih]

theorem segmentsOf_assemble (streams : List (List Nat)) (p : Nat) :
    segmentsOf (assemble streams p) = streams := by
  cases streams with
  | nil => rfl
  | cons s rest =>
      simp only [assemble, segmentsOf, List.filterMap_cons, pieceSeg]
      exact congrArg (s :: ·) (segmentsOf_gap_chain rest p)

/-- C2: for a non-empty request list, `synthesize_batch` under
`ONE_FILE_PER_BATCH` returns exactly one result; its source text is the
`" | "`-joined concatenation of the input texts in input order, and the
segments of the merged output are exactly the per-request synthesized
streams in input order. -/
theorem synthesize_batch_per_batch_spec
    (backend : SynthesisRequest → List Nat) (reqs : List SynthesisRequest)
    (dir : String) (pause : Nat) (_hne : reqs ≠ []) :
    (synthesize_batch backend reqs dir MergeStrategy.ONE_FILE_PER_BATCH pause).length
        = 1 ∧
    ∀ out ∈ synthesize_batch backend reqs dir MergeStrategy.ONE_FILE_PER_BATCH pause,
      out.1.text = String.intercalate " | " (reqs.map (fun r => r.text)) ∧
      segmentsOf out.2 = reqs.map backend := by
  refine ⟨rfl, ?_⟩
  intro out hout
  simp only [synthesize_batch, List.mem_singleton] at hout
  subst hout
  exact ⟨rfl, segmentsOf_assemble _ _⟩

theorem synthesize_batch_per_batch_spec_witness :
    (synthesize_batch (fun r => utf8Bytes r.text)
        [⟨"t1", ⟨"Joanna", "en-US", "neural"⟩, 75⟩,
         ⟨"t2", ⟨"Hans", "de-DE", "neural"⟩, 75⟩] "out"
        MergeStrategy.ONE_FILE_PER_BATCH 500).length = 1 ∧
    ∀ out ∈ synthesize_batch (fun r => utf8Bytes r.text)
        [⟨"t1", ⟨"Joanna", "en-US", "neural"⟩, 75⟩,
         ⟨"t2", ⟨"Hans", "de-DE", "neural"⟩, 75⟩] "out"
        MergeStrategy.ONE_FILE_PER_BATCH 500,
      out.1.text = String.intercalate " | "
        ([⟨"t1", ⟨"Joanna", "en-US", "neural"⟩, 75⟩,
          ⟨"t2", ⟨"Hans", "de-DE", "neural"⟩, 75⟩].map
            (fun r : SynthesisRequest => r.text)) ∧
      segmentsOf out.2 =
        [⟨"t1", ⟨"Joanna", "en-US", "neural"⟩, 75⟩,
         ⟨"t2", ⟨"Hans", "de-DE", "neural"⟩, 75⟩].map
          (fun r : SynthesisRequest => utf8Bytes r.text) :=
  synthesize_batch_per_batch_spec _ _ "out" 500 (by simp)

/-- C3 counterexample: with no explicit output path, the CLI does not use the
FilenameAllocator: `cli.synthesize` defaults to a voice-plus-truncated-text
name and `cli.synthesize_pair` to a `pair_`-plus-truncated-texts name, both
different from the content-hash filename for the same text. -/
theorem default_output_not_allocator :
    default_single_output "joanna" "hello" = "joanna_hello.mp3" ∧
    generate_filename "hello" "" = "5d41402abc4b.mp3" ∧
    default_single_output "joanna" "hello" ≠ generate_filename "hello" "" ∧
    default_pair_output "strong" "stark" = "pair_strong_stark.mp3" ∧
    default_pair_output "strong" "stark" ≠ generate_filename "strong | stark" "" :=
  ⟨by decide, by decide, by decide, by decide, by decide⟩

/-- C3 (amended): the default output names are pure functions of the voice
and the leading characters of the texts — identical inputs reuse identical
names — but they depend only on the first 20 characters of the text
(`cli.synthesize`) resp. the first 10 of each text (`cli.synthesize_pair`),
not on the FilenameAllocator content hash. -/
theorem default_output_prefix_dependence
    (v t1 t2 p1 p2 q1 q2 : String)
    (h : t1.data.take 20 = t2.data.take 20)
    (h1 : p1.data.take 10 = p2.data.take 10)
    (h2 : q1.data.take 10 = q2.data.take 10) :
    default_single_output v t1 = default_single_output v t2 ∧
    default_pair_output p1 q1 = default_pair_output p2 q2 := by
  unfold default_single_output default_pair_output
  rw [h, h1, h2]
  exact ⟨rfl, rfl⟩

theorem default_output_prefix_dependence_witness :
    ("aaaaaaaaaaaaaaaaaaaaXX" : String) ≠ "aaaaaaaaaaaaaaaaaaaaYY" ∧
    default_single_output "joanna" "aaaaaaaaaaaaaaaaaaaaXX" =
      default_single_output "joanna" "aaaaaaaaaaaaaaaaaaaaYY" ∧
    default_pair_output "aaaaaaaaaaZ" "bbbbbbbbbbW" =
      default_pair_output "aaaaaaaaaaQ" "bbbbbbbbbbR" :=
  ⟨by decide,
   (default_output_prefix_dependence "joanna" "aaaaaaaaaaaaaaaaaaaaXX"
      "aaaaaaaaaaaaaaaaaaaaYY" "" "" "" "" (by decide) rfl rfl).1,
   (default_output_prefix_dependence "joanna" "" ""
      "aaaaaaaaaaZ" "aaaaaaaaaaQ" "bbbbbbbbbbW" "bbbbbbbbbbR"
      rfl (by decide) (by decide)).2⟩

/-- C6 counterexample: a pair-batch entry that is a length-3 array is not
rejected — parsing succeeds and silently uses the first two elements, so a
malformed entry does not fail with a batch-input error. -/
theorem pair_entry_length_unchecked :
    parse_pair_entries
        (Json.jarr [Json.jarr [Json.jstr "a", Json.jstr "b", Json.jstr "c"]]) =
      Except.ok [(Json.jstr "a", Json.jstr "b")] := by
  rfl

/-- C6 (amended): content that is not a JSON array fails both batch commands
with a batch-input error before any backend call (the error is independent of
the backend); pair entries are not validated for length — an entry with two
or more elements contributes its first two, and a one-element entry fails
with an `IndexError` (not a batch-input error) during request construction,
still before any backend call. -/
theorem batch_input_validation :
    (∀ (backend : Json → SynthesisResult) raw, (∀ xs, raw ≠ Json.jarr xs) →
        cli_synthesize_batch backend raw =
          Except.error "INPUT_FILE must contain a JSON array of strings.") ∧
    (∀ (backend : Json × Json → SynthesisResult) raw,
        (∀ xs, raw ≠ Json.jarr xs) →
        cli_synthesize_pair_batch backend raw =
          Except.error "INPUT_FILE must contain a JSON array of [text1, text2] pairs.") ∧
    (∀ a b rest, pyIndex (Json.jarr (a :: b :: rest)) 0 = Except.ok a ∧
        pyIndex (Json.jarr (a :: b :: rest)) 1 = Except.ok b) ∧
    (∀ a, parse_pair_entries (Json.jarr [Json.jarr [a]]) =
        Except.error "IndexError") := by
  refine ⟨?_, ?_, fun a b rest => ⟨rfl, rfl⟩, fun a => rfl⟩
  · intro backend raw h
    cases raw with
    | jarr xs => exact absurd rfl (h xs)
    | jstr s => rfl
    | jnum n => rfl
    | jbool b => rfl
    | jnull => rfl
    | jobj fields => rfl
  · intro backend raw h
    cases raw with
    | jarr xs => exact absurd rfl (h xs)
    | jstr s => rfl
    | jnum n => rfl
    | jbool b => rfl
    | jnull => rfl
    | jobj fields => rfl

theorem batch_input_validation_witness :
    cli_synthesize_batch (fun _ => ⟨"p", "t", "v"⟩) (Json.jstr "x") =
      Except.error "INPUT_FILE must contain a JSON array of strings." ∧
    cli_synthesize_pair_batch (fun _ => ⟨"p", "t", "v"⟩) (Json.jnum 3) =
      Except.error "INPUT_FILE must contain a JSON array of [text1, text2] pairs." ∧
    parse_pair_entries (Json.jarr [Json.jarr [Json.jstr "a"]]) =
      Except.error "IndexError" :=
  ⟨batch_input_validation.1 _ _ (fun xs h => by cases h),
   batch_input_validation.2.1 _ _ (fun xs h => by cases h),
   batch_input_validation.2.2.2 (Json.jstr "a")⟩

end LanglearnPolly
